import Mathlib

/-!
Verification model of the Astrospheric INDI weather driver
(`drivers/weather/indi_astrospheric_weather.cpp`).

The development shallowly embeds the forecast acquisition and time-indexed
retrieval engine: `parseUTCDateTime`, `parseJSONResponse`, and the API-mode
branch of `updateWeather`, together with the driver state those functions
read and write.  Machine `double` samples are modelled as exact rationals
(the driver only subtracts the constant 273.15 and multiplies by 3.6, so the
arithmetic structure is preserved); `time_t` is modelled as unbounded `Int`;
the narrowing of the hour offset into a C `int` is modelled explicitly as a
two's-complement wrap.  C++ truncating integer division is `Int.tdiv`.
JSON payloads are modelled post-decode: a fetched body either fails
`json::parse` or yields a `RawResponse` record of the fields the driver
reads; a sample whose `Value.ActualValue` is missing or non numeric is an
`Option.none` (reading it with `get<double>()` throws, which the driver's
`catch` turns into a parse failure).
-/

/-- The `tm` fields that `std::get_time` fills and `timegm` reads.
`tm_year` is years since 1900 and `tm_mon` is zero-based, as in `<ctime>`. -/
structure Tm where
  tm_sec : Int
  tm_min : Int
  tm_hour : Int
  tm_mday : Int
  tm_mon : Int
  tm_year : Int
deriving DecidableEq, Repr

/-- Read up to `maxLen` leading decimal digits (at least one), check the
parsed value lies in `[lo, hi]`, and return the value with the remaining
characters.  This is the numeric-field behaviour of `std::get_time`
conversion specifiers (libstdc++ validates each field against its range). -/
def readNum (maxLen lo hi : Nat) (cs : List Char) : Option (Nat × List Char) :=
  let ds := (cs.takeWhile Char.isDigit).take maxLen
  if ds.isEmpty then none
  else
    let v := ds.foldl (fun a c => 10 * a + (c.toNat - 48)) 0
    if lo ≤ v ∧ v ≤ hi then some (v, cs.drop ds.length) else none

/-- Match one literal character, as a literal in a `std::get_time` format. -/
def expectChar (c : Char) : List Char → Option (List Char)
  | [] => none
  | x :: rest => if x = c then some rest else none

/-- Model of `ss >> std::get_time(&tm, "%Y-%m-%dT%H:%M:%SZ")` on a zero-initialised
`tm`: returns the filled `tm`, or `none` when the stream would fail. -/
def get_time (s : String) : Option Tm := do
  let cs := s.data
  let (y, cs) ← readNum 4 0 9999 cs
  let cs ← expectChar '-' cs
  let (mo, cs) ← readNum 2 1 12 cs
  let cs ← expectChar '-' cs
  let (d, cs) ← readNum 2 1 31 cs
  let cs ← expectChar 'T' cs
  let (h, cs) ← readNum 2 0 23 cs
  let cs ← expectChar ':' cs
  let (mi, cs) ← readNum 2 0 59 cs
  let cs ← expectChar ':' cs
  let (se, cs) ← readNum 2 0 60 cs
  let _ ← expectChar 'Z' cs
  pure ⟨(se : Int), (mi : Int), (h : Int), (d : Int), (mo : Int) - 1, (y : Int) - 1900⟩

/-- Days from 1970-01-01 to the (proleptic Gregorian) civil date `y-m-d`,
the calendar arithmetic performed by `timegm`. -/
def daysFromCivil (y m d : Int) : Int :=
  let y2 := if m ≤ 2 then y - 1 else y
  let era := Int.fdiv y2 400
  let yoe := y2 - era * 400
  let mp := Int.emod (m + 9) 12
  let doy := Int.fdiv (153 * mp + 2) 5 + d - 1
  let doe := yoe * 365 + Int.fdiv yoe 4 - Int.fdiv yoe 100 + doy
  era * 146097 + doe - 719468

/-- Model of `timegm(&tm)`: seconds since the Unix epoch of the UTC instant described
by `tm`.  Unlike `mktime`, `timegm` never consults the host's local
timezone. -/
def timegm (tm : Tm) : Int :=
  daysFromCivil (tm.tm_year + 1900) (tm.tm_mon + 1) tm.tm_mday * 86400 +
    tm.tm_hour * 3600 + tm.tm_min * 60 + tm.tm_sec

/-- Model of `AstrosphericWeather::parseUTCDateTime`: `get_time` with format
`"%Y-%m-%dT%H:%M:%SZ"`, then `timegm`; `-1` when the stream failed. -/
def parseUTCDateTime (dateTimeStr : String) : Int :=
  match get_time dateTimeStr with
  | none => -1
  | some tm => timegm tm

/-- Run of `parseUTCDateTime` on a host whose local timezone is
`hostTzOffsetSeconds`.  The implementation parses with `std::get_time`
(which performs no timezone arithmetic) and converts with `timegm` (which is
defined over UTC only), so the host timezone parameter is never consulted;
a `mktime`-based implementation would instead shift the result by it. -/
def parseUTCDateTimeOnHost (hostTzOffsetSeconds : Int) (dateTimeStr : String) : Int :=
  parseUTCDateTime dateTimeStr

/-- Driver mode switch: `ModeSP[0]` (API) versus `ModeSP[1]` (simulated);
the constructor defaults to simulated. -/
inductive Mode
  | api
  | simulated
deriving DecidableEq, Repr

/-- The JSON fields of a successfully `json::parse`d provider response that
the driver reads.  `none` on `UTCStartTime` or `APICreditUsedToday` means
the field is missing or of the wrong type (the nlohmann `get` throws).
A `none` top-level series models a missing key: the non-const `operator[]`
inserts `null` and iterating `null` yields no elements.  A `none` sample
inside a series models a missing or non-numeric `Value.ActualValue`
(reading it throws a `json::exception`). -/
structure RawResponse where
  UTCStartTime : Option String
  APICreditUsedToday : Option Int
  RDPS_CloudCover : Option (List (Option ℚ))
  RDPS_Temperature : Option (List (Option ℚ))
  RDPS_WindVelocity : Option (List (Option ℚ))
  RDPS_DewPoint : Option (List (Option ℚ))
  RDPS_WindDirection : Option (List (Option ℚ))
  Astrospheric_Seeing : Option (List (Option ℚ))
  Astrospheric_Transparency : Option (List (Option ℚ))
deriving DecidableEq, Repr

/-- The driver state fields of `AstrosphericWeather` that the modelled
functions read or write. -/
structure DriverState where
  connected : Bool
  locationReceived : Bool
  mode : Mode
  apiKey : Option String
  latitude : ℚ
  longitude : ℚ
  cloudCover : List ℚ
  temperature : List ℚ
  windSpeed : List ℚ
  dewPoint : List ℚ
  windDirection : List ℚ
  seeing : List ℚ
  transparency : List ℚ
  forecastStartTime : Int
  forecastHours : Int
  forecastValid : Bool
  lastFetchTime : Int
  apiCreditsUsed : Int
deriving DecidableEq, Repr

/-- State established by the `AstrosphericWeather` constructor (forecast
fields zeroed, mode defaulted to simulated, nothing configured yet). -/
def initialState : DriverState :=
  { connected := false
    locationReceived := false
    mode := Mode.simulated
    apiKey := none
    latitude := 0
    longitude := 0
    cloudCover := []
    temperature := []
    windSpeed := []
    dewPoint := []
    windDirection := []
    seeing := []
    transparency := []
    forecastStartTime := 0
    forecastHours := 0
    forecastValid := false
    lastFetchTime := 0
    apiCreditsUsed := 0 }

/-- One extraction loop
`for (const auto &hour : j[...]) v.push_back(conv(hour["Value"]["ActualValue"].get<double>()))`:
returns the values pushed before any throwing sample, and whether a sample
threw. -/
def fillSeries (conv : ℚ → ℚ) : List (Option ℚ) → List ℚ × Bool
  | [] => ([], false)
  | none :: _ => ([], true)
  | some v :: rest =>
    let r := fillSeries conv rest
    (conv v :: r.1, r.2)

/-- Iterating `j[key]` for a series key: a missing key was inserted as
`null` by `operator[]`, and iterating `null` yields no elements. -/
def entriesOf (field : Option (List (Option ℚ))) : List (Option ℚ) :=
  field.getD []

/-- Return sites of `AstrosphericWeather::parseJSONResponse`: the
`catch (json::exception)` block, the failed-`UTCStartTime` return, the
length-mismatch return, and the successful return. -/
inductive ParseOutcome
  | success
  | jsonException
  | badTimestamp
  | lengthMismatch
deriving DecidableEq, Repr

/-- The length validation of `parseJSONResponse` lines 401-403:
`forecastHours != 82 || temperature.size() != 82 || ...`. -/
def lengthMismatch82 (s : DriverState) : Bool :=
  decide (s.forecastHours ≠ 82) || decide (s.temperature.length ≠ 82) ||
  decide (s.windSpeed.length ≠ 82) || decide (s.dewPoint.length ≠ 82) ||
  decide (s.windDirection.length ≠ 82) || decide (s.seeing.length ≠ 82) ||
  decide (s.transparency.length ≠ 82)

/-- Model of `AstrosphericWeather::parseJSONResponse`, statement by statement, with
the member mutations it performs threaded through the state.  `body` is the
result of `json::parse` on the response text (`none` = malformed, the parse
throws).  `now` stands for the `time(nullptr)` call that stamps
`lastFetchTime` on success. -/
def parseJSONResponse (s : DriverState) (body : Option RawResponse) (now : Int) :
    DriverState × ParseOutcome :=
  match body with
  | none => (s, ParseOutcome.jsonException)
  | some j =>
    match j.UTCStartTime with
    | none => (s, ParseOutcome.jsonException)
    | some utcStartTimeStr =>
      let s := { s with forecastStartTime := parseUTCDateTime utcStartTimeStr }
      if s.forecastStartTime = -1 then (s, ParseOutcome.badTimestamp)
      else
        match j.APICreditUsedToday with
        | none => (s, ParseOutcome.jsonException)
        | some credits =>
          let s := { s with apiCreditsUsed := credits }
          let s := { s with cloudCover := [], temperature := [], windSpeed := [],
                            dewPoint := [], windDirection := [], seeing := [],
                            transparency := [] }
          let cc := fillSeries (fun q => q) (entriesOf j.RDPS_CloudCover)
          let s := { s with cloudCover := cc.1 }
          if cc.2 then (s, ParseOutcome.jsonException) else
          let te := fillSeries (fun q => q - 273.15) (entriesOf j.RDPS_Temperature)
          let s := { s with temperature := te.1 }
          if te.2 then (s, ParseOutcome.jsonException) else
          let ws := fillSeries (fun q => q * 3.6) (entriesOf j.RDPS_WindVelocity)
          let s := { s with windSpeed := ws.1 }
          if ws.2 then (s, ParseOutcome.jsonException) else
          let dp := fillSeries (fun q => q - 273.15) (entriesOf j.RDPS_DewPoint)
          let s := { s with dewPoint := dp.1 }
          if dp.2 then (s, ParseOutcome.jsonException) else
          let wd := fillSeries (fun q => q) (entriesOf j.RDPS_WindDirection)
          let s := { s with windDirection := wd.1 }
          if wd.2 then (s, ParseOutcome.jsonException) else
          let se := fillSeries (fun q => q) (entriesOf j.Astrospheric_Seeing)
          let s := { s with seeing := se.1 }
          if se.2 then (s, ParseOutcome.jsonException) else
          let tr := fillSeries (fun q => q) (entriesOf j.Astrospheric_Transparency)
          let s := { s with transparency := tr.1 }
          if tr.2 then (s, ParseOutcome.jsonException) else
          let s := { s with forecastHours := (s.cloudCover.length : Int) }
          if lengthMismatch82 s then
            (s, ParseOutcome.lengthMismatch)
          else
            ({ s with forecastValid := true, lastFetchTime := now },
             ParseOutcome.success)

/-- A provider response whose header fields are present and whose seven
series are all present with every sample numeric. -/
def mkResponse (ts : String) (credits : Int)
    (cc te ws dp wd se tr : List ℚ) : RawResponse :=
  { UTCStartTime := some ts
    APICreditUsedToday := some credits
    RDPS_CloudCover := some (cc.map some)
    RDPS_Temperature := some (te.map some)
    RDPS_WindVelocity := some (ws.map some)
    RDPS_DewPoint := some (dp.map some)
    RDPS_WindDirection := some (wd.map some)
    Astrospheric_Seeing := some (se.map some)
    Astrospheric_Transparency := some (tr.map some) }

/-- The refresh condition of `updateWeather` line 466:
`!forecastValid || (currentTime - lastFetchTime) > (6 * 3600)`. -/
def needsRefresh (s : DriverState) (currentTime : Int) : Bool :=
  !s.forecastValid || decide (currentTime - s.lastFetchTime > 6 * 3600)

/-- Two's-complement narrowing of a `time_t` quotient into a C `int`, as in
`int hourOffset = (now - forecastStartTime) / 3600`. -/
def toInt32 (x : Int) : Int :=
  Int.emod (x + 2147483648) 4294967296 - 2147483648

/-- The expression `(now - forecastStartTime) / 3600` narrowed to `int`: C++ `/` on signed
integers truncates toward zero (`Int.tdiv`). -/
def hourOffsetOf (now forecastStartTime : Int) : Int :=
  toInt32 (Int.tdiv (now - forecastStartTime) 3600)

/-- The check `APIKeyTP[0].getText() == nullptr || strlen(...) == 0`. -/
def apiKeyEmpty (s : DriverState) : Bool :=
  match s.apiKey with
  | none => true
  | some k => k.isEmpty

/-- The seven per-metric values a successful tick publishes through
`setParameterValue`. -/
structure WeatherValues where
  cloudCover : ℚ
  temperature : ℚ
  windSpeed : ℚ
  dewPoint : ℚ
  windDirection : ℚ
  seeing : ℚ
  transparency : ℚ
deriving DecidableEq, Repr

/-- What a single `updateWeather` call produces, by return site.
`outOfBoundsRead` marks the undefined behaviour of a `std::vector`
`operator[]` access past the vector's size at the indexing step; it is not
a C++ return site. -/
inductive UpdateResult
  | alertNotConnected
  | busyWaitingLocation
  | alertNoApiKey
  | alertNoLocation
  | alertFetchParse
  | alertOutOfRange
  | okValues (v : WeatherValues)
  | okSimulated (v : WeatherValues)
  | outOfBoundsRead
deriving DecidableEq, Repr

/-- Result of one `updateWeather` call: the new driver state, the outcome,
and whether `fetchDataFromAPI` was invoked during the call. -/
structure TickOutput where
  state : DriverState
  result : UpdateResult
  fetchAttempted : Bool
deriving DecidableEq, Repr

/-- What the network returns when `fetchDataFromAPI` runs: a transport or
HTTP failure (`fetchDataFromAPI` returns false), or a body, which
`json::parse` then either rejects (`none`) or decodes. -/
inductive FetchResult
  | fail
  | ok (body : Option RawResponse)
deriving DecidableEq, Repr

/-- The seven `setParameterValue(..., series[hourOffset])` reads.  `none`
when any of the vector accesses is past its vector's size. -/
def seriesAt (s : DriverState) (i : Nat) : Option WeatherValues :=
  s.cloudCover[i]?.bind fun cc =>
  s.temperature[i]?.bind fun te =>
  s.windSpeed[i]?.bind fun ws =>
  s.dewPoint[i]?.bind fun dp =>
  s.windDirection[i]?.bind fun wd =>
  s.seeing[i]?.bind fun se =>
  s.transparency[i]?.bind fun tr =>
  some ⟨cc, te, ws, dp, wd, se, tr⟩

/-- Lines 477-511 of `updateWeather`: compute the hour offset, fail closed
(and invalidate the cache) when it is outside `[0, forecastHours)`, and
otherwise publish the seven series values at that offset. -/
def indexAndReport (s : DriverState) (now : Int) (fetched : Bool) : TickOutput :=
  let hourOffset := hourOffsetOf now s.forecastStartTime
  if hourOffset < 0 ∨ s.forecastHours ≤ hourOffset then
    ⟨{ s with forecastValid := false }, UpdateResult.alertOutOfRange, fetched⟩
  else
    match seriesAt s hourOffset.toNat with
    | some v => ⟨s, UpdateResult.okValues v, fetched⟩
    | none => ⟨s, UpdateResult.outOfBoundsRead, fetched⟩

/-- Model of `AstrosphericWeather::updateWeather`, one tick.  `now` stands for the
`time(nullptr)` calls of the tick and `net` for what the network would
deliver if `fetchDataFromAPI` runs. -/
def updateWeather (s : DriverState) (now : Int) (net : FetchResult) : TickOutput :=
  if s.connected = false then ⟨s, UpdateResult.alertNotConnected, false⟩
  else if s.locationReceived = false then ⟨s, UpdateResult.busyWaitingLocation, false⟩
  else
    match s.mode with
    | Mode.api =>
      if apiKeyEmpty s then ⟨s, UpdateResult.alertNoApiKey, false⟩
      else if s.latitude = 0 ∧ s.longitude = 0 then
        ⟨s, UpdateResult.alertNoLocation, false⟩
      else if needsRefresh s now then
        match net with
        | FetchResult.fail => ⟨s, UpdateResult.alertFetchParse, true⟩
        | FetchResult.ok body =>
          let pr := parseJSONResponse s body now
          match pr.2 with
          | ParseOutcome.success => indexAndReport pr.1 now true
          | _ => ⟨pr.1, UpdateResult.alertFetchParse, true⟩
      else indexAndReport s now false
    | Mode.simulated =>
      ⟨s, UpdateResult.okSimulated ⟨50, 20, 10, 10, 180, 2.5, 15⟩, false⟩

/-- Externally driven transitions of the driver: `Connect`, the
property-handler mutations (`ISNewNumber` on `LOCATION` or a snooped
`GEOGRAPHIC_COORD`, `ISNewText` on the API key, `ISNewSwitch` on the mode),
and a timer tick running `updateWeather`. -/
inductive Event
  | connect
  | setLocation (lat lon : ℚ)
  | setApiKey (key : String)
  | setMode (m : Mode)
  | tick (now : Int) (net : FetchResult)
deriving Repr

/-- Effect of one event on the driver state, from the corresponding handler
in the source. -/
def step (s : DriverState) : Event → DriverState
  | Event.connect => { s with connected := true }
  | Event.setLocation lat lon =>
    { s with latitude := lat, longitude := lon,
             forecastValid := false, locationReceived := true }
  | Event.setApiKey k => { s with apiKey := some k, forecastValid := false }
  | Event.setMode m => { s with mode := m, forecastValid := false }
  | Event.tick now net => (updateWeather s now net).state

/-- Run a sequence of events from the constructor's state. -/
def runEvents (es : List Event) : DriverState :=
  es.foldl step initialState

/-- Eighty-two equal samples, for concrete test states. -/
def all82 (q : ℚ) : List ℚ := List.replicate 82 q

/-- A concrete fully configured state holding an accepted record fetched at
time 0 (all seven series of length 82, `forecastHours = 82`, valid). -/
def storedState : DriverState :=
  { initialState with
      connected := true
      locationReceived := true
      mode := Mode.api
      apiKey := some "KEY"
      latitude := 45
      longitude := -75
      cloudCover := all82 1
      temperature := all82 1
      windSpeed := all82 1
      dewPoint := all82 1
      windDirection := all82 1
      seeing := all82 1
      transparency := all82 1
      forecastStartTime := 0
      forecastHours := 82
      forecastValid := true
      lastFetchTime := 0 }

/-- A response whose seven series are all present and numeric but whose
`Astrospheric_Seeing` array has 3 entries instead of 82. -/
def lengthMismatchResp : RawResponse :=
  mkResponse "1970-01-12T06:00:00Z" 2 (all82 2) (all82 2) (all82 2) (all82 2)
    (all82 2) (List.replicate 3 2) (all82 2)

/-- A response with all seven series present and 82 entries each, every
sample numeric except the first cloud-cover hour, whose `ActualValue` is
missing. -/
def missingSampleResp : RawResponse :=
  { UTCStartTime := some "2025-06-01T00:00:00Z"
    APICreditUsedToday := some 3
    RDPS_CloudCover := some (none :: List.replicate 81 (some 1))
    RDPS_Temperature := some (List.replicate 82 (some 1))
    RDPS_WindVelocity := some (List.replicate 82 (some 1))
    RDPS_DewPoint := some (List.replicate 82 (some 1))
    RDPS_WindDirection := some (List.replicate 82 (some 1))
    Astrospheric_Seeing := some (List.replicate 82 (some 1))
    Astrospheric_Transparency := some (List.replicate 82 (some 1)) }

/-- A response identical to `missingSampleResp` except that the defect sits
in the seeing series: every sample numeric except the first seeing hour,
whose `ActualValue` is missing. -/
def missingSeeingResp : RawResponse :=
  { missingSampleResp with
      RDPS_CloudCover := some (List.replicate 82 (some 1))
      Astrospheric_Seeing := some (none :: List.replicate 81 (some 1)) }

/-- A well-formed 82-hour response carrying the reference conversion
samples: cloud cover 50, temperature 293.15 K, wind 10 m/s, dew point
280 K, wind direction 180, seeing 2, transparency 15. -/
def goodResp : RawResponse :=
  mkResponse "1970-01-12T06:00:00Z" 1 (all82 50) (all82 293.15) (all82 10)
    (all82 280) (all82 180) (all82 2) (all82 15)

/-- A well-formed all-numeric 82-hour response starting 1970-01-12T13:00:00Z
(epoch 997200). -/
def firstResp : RawResponse :=
  mkResponse "1970-01-12T13:00:00Z" 1 (all82 1) (all82 1) (all82 1) (all82 1)
    (all82 1) (all82 1) (all82 1)

/-- The event trace reaching the out-of-bounds read: configure and connect;
a tick at 1000000 accepts `firstResp` (fetched-at stamp 1000000); a stale
tick at 1021601 fetches `lengthMismatchResp`, whose parse fails on the
3-entry seeing series but leaves the mismatched series stored,
`forecastHours = 82` and `forecastValid` still true. -/
def oobEvents : List Event :=
  [Event.setApiKey "KEY", Event.setLocation 45 (-75), Event.setMode Mode.api,
   Event.connect,
   Event.tick 1000000 (FetchResult.ok (some firstResp)),
   Event.tick 1021601 (FetchResult.ok (some lengthMismatchResp))]

/-! ## Helper lemmas -/

theorem toInt32_eq_self {x : Int} (h1 : -2147483648 ≤ x) (h2 : x < 2147483648) :
    toInt32 x = x := by
  have h : Int.emod (x + 2147483648) 4294967296 = (x + 2147483648) % 4294967296 := rfl
  unfold toInt32
  rw [h]
  omega

theorem fillSeries_map_some (f : ℚ → ℚ) (l : List ℚ) :
    fillSeries f (l.map some) = (l.map f, false) := by
  induction l with
  | nil => rfl
  | cons x xs ih => simp [fillSeries, ih]

theorem fillSeries_exception (f : ℚ → ℚ) (entries : List (Option ℚ))
    (h : (none : Option ℚ) ∈ entries) : (fillSeries f entries).2 = true := by
  induction entries with
  | nil => cases h
  | cons x xs ih =>
    cases x with
    | none => simp [fillSeries]
    | some v =>
      have hx : (none : Option ℚ) ∈ xs := by
        cases h with
        | tail _ h2 => exact h2
      simp [fillSeries, ih hx]

theorem indexAndReport_fetchAttempted (s : DriverState) (now : Int) (f : Bool) :
    (indexAndReport s now f).fetchAttempted = f := by
  simp only [indexAndReport]
  split
  · rfl
  · split <;> rfl

theorem tdiv_eq_neg_tdiv_neg (d b : Int) : Int.tdiv d b = -Int.tdiv (-d) b := by
  have h := Int.neg_tdiv (-d) b
  rw [neg_neg] at h
  rw [h]

theorem hourOffsetOf_zero_of_small_neg (now start : Int)
    (h1 : start - 3600 < now) (h2 : now < start) : hourOffsetOf now start = 0 := by
  unfold hourOffsetOf
  have h : Int.tdiv (now - start) 3600 = 0 := by
    rw [tdiv_eq_neg_tdiv_neg]
    rw [Int.tdiv_eq_zero_of_lt (by omega) (by omega)]
    norm_num
  rw [h]
  decide

theorem updateWeather_api_fresh (s : DriverState) (now : Int) (net : FetchResult)
    (h1 : s.connected = true) (h2 : s.locationReceived = true) (h3 : s.mode = Mode.api)
    (h4 : apiKeyEmpty s = false) (h5 : ¬(s.latitude = 0 ∧ s.longitude = 0))
    (h6 : needsRefresh s now = false) :
    updateWeather s now net = indexAndReport s now false := by
  simp [updateWeather, h1, h2, h3, h4, h6, if_neg h5]

theorem updateWeather_api_stale_fail (s : DriverState) (now : Int)
    (h1 : s.connected = true) (h2 : s.locationReceived = true) (h3 : s.mode = Mode.api)
    (h4 : apiKeyEmpty s = false) (h5 : ¬(s.latitude = 0 ∧ s.longitude = 0))
    (h6 : needsRefresh s now = true) :
    updateWeather s now FetchResult.fail =
      ⟨s, UpdateResult.alertFetchParse, true⟩ := by
  simp [updateWeather, h1, h2, h3, h4, h6, if_neg h5]

theorem updateWeather_api_stale_parse_ok (s : DriverState) (now : Int)
    (body : Option RawResponse)
    (h1 : s.connected = true) (h2 : s.locationReceived = true) (h3 : s.mode = Mode.api)
    (h4 : apiKeyEmpty s = false) (h5 : ¬(s.latitude = 0 ∧ s.longitude = 0))
    (h6 : needsRefresh s now = true)
    (hp : (parseJSONResponse s body now).2 = ParseOutcome.success) :
    updateWeather s now (FetchResult.ok body) =
      indexAndReport (parseJSONResponse s body now).1 now true := by
  simp [updateWeather, h1, h2, h3, h4, h6, if_neg h5, hp]

theorem updateWeather_api_stale_parse_fail (s : DriverState) (now : Int)
    (body : Option RawResponse)
    (h1 : s.connected = true) (h2 : s.locationReceived = true) (h3 : s.mode = Mode.api)
    (h4 : apiKeyEmpty s = false) (h5 : ¬(s.latitude = 0 ∧ s.longitude = 0))
    (h6 : needsRefresh s now = true)
    (hp : (parseJSONResponse s body now).2 ≠ ParseOutcome.success) :
    updateWeather s now (FetchResult.ok body) =
      ⟨(parseJSONResponse s body now).1, UpdateResult.alertFetchParse, true⟩ := by
  simp only [updateWeather, h1, h2, h3, h4, h6, if_neg h5]
  cases hpo : (parseJSONResponse s body now).2 <;> simp_all

/-- C3 counterexample: with a record fetched at `T0 = 0` and `valid = true`,
the refresh condition is still `false` at `now = T0 + 21600`.  The code
refreshes only when strictly more than 6 hours have elapsed
(`(now - lastFetchTime) > 6*3600`), so the claim that the staleness check
is true at exactly `T0 + 21600` is false on the code. -/
theorem staleness_boundary_cex : needsRefresh storedState 21600 = false := by decide

/-- C3 amended: a refresh is triggered exactly when `valid` is false (which
also covers the never-stored state, since the constructor starts with
`forecastValid = false`) or when strictly more than 6 hours have elapsed:
the check is false at `T0 + 21600 - 1` and still false at `T0 + 21600`, and
becomes true at `T0 + 21601`; within one API-mode tick with the
prerequisites satisfied, a fetch is attempted exactly when this check
holds. -/
theorem staleness_policy_amended (s : DriverState) (now : Int) (net : FetchResult) :
    (needsRefresh s now = true ↔
      (s.forecastValid = false ∨ 6 * 3600 < now - s.lastFetchTime)) ∧
    (s.forecastValid = true →
      needsRefresh s (s.lastFetchTime + 21599) = false ∧
      needsRefresh s (s.lastFetchTime + 21600) = false ∧
      needsRefresh s (s.lastFetchTime + 21601) = true) ∧
    (s.connected = true → s.locationReceived = true → s.mode = Mode.api →
      apiKeyEmpty s = false → ¬(s.latitude = 0 ∧ s.longitude = 0) →
      (updateWeather s now net).fetchAttempted = needsRefresh s now) := by
  refine ⟨?_, ?_, ?_⟩
  · cases hv : s.forecastValid <;> simp [needsRefresh, hv]
  · intro hv
    refine ⟨?_, ?_, ?_⟩ <;> simp [needsRefresh, hv] <;> omega
  · intro h1 h2 h3 h4 h5
    by_cases h6 : needsRefresh s now = true
    · rw [h6]
      cases net with
      | fail => rw [updateWeather_api_stale_fail s now h1 h2 h3 h4 h5 h6]
      | ok body =>
        by_cases hp : (parseJSONResponse s body now).2 = ParseOutcome.success
        · rw [updateWeather_api_stale_parse_ok s now body h1 h2 h3 h4 h5 h6 hp]
          exact indexAndReport_fetchAttempted _ _ _
        · rw [updateWeather_api_stale_parse_fail s now body h1 h2 h3 h4 h5 h6 hp]
    · have h6f : needsRefresh s now = false := by
        cases hnr : needsRefresh s now
        · rfl
        · exact absurd hnr h6
      rw [h6f, updateWeather_api_fresh s now net h1 h2 h3 h4 h5 h6f]
      exact indexAndReport_fetchAttempted _ _ _

/-- Closed witness for the amended staleness policy at a concrete state:
boundary values around the 6-hour mark and the fetch decision of a tick. -/
theorem staleness_policy_amended_witness :
    (needsRefresh storedState 21599 = false ∧
     needsRefresh storedState 21600 = false ∧
     needsRefresh storedState 21601 = true) ∧
    (updateWeather storedState 21601 FetchResult.fail).fetchAttempted =
      needsRefresh storedState 21601 := by
  refine ⟨?_, ?_⟩
  · have h := (staleness_policy_amended storedState 0 FetchResult.fail).2.1 (by decide)
    exact h
  · exact (staleness_policy_amended storedState 21601 FetchResult.fail).2.2
      (by decide) (by decide) (by decide) (by decide) (by decide)

/-- C4 counterexample: at `now` one second before the record start time the
code computes hour index 0 (C++ division truncates toward zero), not the
claimed floored value -1, and the computed index is not negative. -/
theorem hourOffset_truncation_cex :
    hourOffsetOf 999 1000 = 0 ∧ Int.fdiv (999 - 1000) 3600 = -1 ∧
    ¬ hourOffsetOf 999 1000 < 0 := by decide

/-- C4 amended: the hour index is `(now - startTime) / 3600` with C++
truncation toward zero, narrowed to `int`.  For `now ≥ startTime` (within
`int` range) this agrees with the floored quotient; for `now` in the open
hour just before `startTime` the index is 0 — accepted by the range check
when the record is present, not rejected; only `now ≤ startTime - 3600`
(within `int` range) produces a negative, rejected index. -/
theorem hourOffset_division_semantics (now start : Int) :
    (0 ≤ now - start → now - start < 2147483648 * 3600 →
      hourOffsetOf now start = Int.fdiv (now - start) 3600) ∧
    (start - 3600 < now → now < start → hourOffsetOf now start = 0) ∧
    (now ≤ start - 3600 → -2147483648 * 3600 ≤ now - start →
      hourOffsetOf now start < 0) ∧
    (∀ s : DriverState, s.forecastStartTime = start → s.forecastHours = 82 →
      start - 3600 < now → now < start →
      (indexAndReport s now false).result ≠ UpdateResult.alertOutOfRange) := by
  refine ⟨?_, ?_, ?_, ?_⟩
  · intro h1 h2
    unfold hourOffsetOf
    have e : Int.tdiv (now - start) 3600 = (now - start) / 3600 :=
      Int.tdiv_eq_ediv h1 (by norm_num)
    have e2 : Int.fdiv (now - start) 3600 = Int.tdiv (now - start) 3600 :=
      Int.fdiv_eq_tdiv h1 (by norm_num)
    rw [e, e2, e, toInt32_eq_self (by omega) (by omega)]
  · intro h1 h2
    exact hourOffsetOf_zero_of_small_neg now start h1 h2
  · intro h1 h2
    unfold hourOffsetOf
    rw [tdiv_eq_neg_tdiv_neg]
    have e : Int.tdiv (-(now - start)) 3600 = (-(now - start)) / 3600 :=
      Int.tdiv_eq_ediv (by omega) (by norm_num)
    rw [e, toInt32_eq_self (by omega) (by omega)]
    omega
  · intro s hs hh h1 h2
    have h0 : hourOffsetOf now s.forecastStartTime = 0 := by
      rw [hs]
      exact hourOffsetOf_zero_of_small_neg now start h1 h2
    simp only [indexAndReport, h0, hh]
    rw [if_neg (by omega)]
    cases hse : seriesAt s (Int.toNat 0) <;> simp [hse]

/-- Closed witness for the amended hour-index semantics: a positive offset
agreeing with the floor, the in-hour-before-start offset 0 that the range
check accepts, and a rejected offset one full hour before start. -/
theorem hourOffset_division_semantics_witness :
    hourOffsetOf 1000800 972000 = Int.fdiv (1000800 - 972000) 3600 ∧
    hourOffsetOf 999 1000 = 0 ∧
    hourOffsetOf (-2600) 1000 < 0 ∧
    (indexAndReport storedState (-1) false).result ≠
      UpdateResult.alertOutOfRange := by
  refine ⟨?_, ?_, ?_, ?_⟩
  · exact (hourOffset_division_semantics 1000800 972000).1 (by decide) (by decide)
  · exact (hourOffset_division_semantics 999 1000).2.1 (by decide) (by decide)
  · exact (hourOffset_division_semantics (-2600) 1000).2.2.1 (by decide) (by decide)
  · exact (hourOffset_division_semantics (-1) 0).2.2.2 storedState (by decide)
      (by decide) (by decide) (by decide)

/-- C8: `parseUTCDateTime` interprets its input as UTC independently of the
host timezone — two runs under different host timezones agree (the code
converts with `timegm`, which never consults the timezone environment) —
any string the `get_time` format rejects yields the failure value -1, and
the reference timestamp maps to its UTC epoch instant. -/
theorem parseUTCDateTime_timezone_independent (tz1 tz2 : Int) (str : String) :
    parseUTCDateTimeOnHost tz1 str = parseUTCDateTimeOnHost tz2 str ∧
    (get_time str = none → parseUTCDateTimeOnHost tz1 str = -1) ∧
    parseUTCDateTimeOnHost tz1 "2025-06-01T00:00:00Z" = 1748736000 := by
  refine ⟨rfl, ?_, ?_⟩
  · intro h
    simp [parseUTCDateTimeOnHost, parseUTCDateTime, h]
  · show parseUTCDateTime "2025-06-01T00:00:00Z" = 1748736000
    decide

/-- Closed witness: a UTC-offset pair of hosts agree on a concrete
timestamp, and a malformed string yields -1. -/
theorem parseUTCDateTime_timezone_independent_witness :
    parseUTCDateTimeOnHost 0 "2025-06-01T00:00:00Z" =
      parseUTCDateTimeOnHost (-28800) "2025-06-01T00:00:00Z" ∧
    parseUTCDateTimeOnHost 0 "2025-06-01 00:00:00" = -1 :=
  ⟨(parseUTCDateTime_timezone_independent 0 (-28800) "2025-06-01T00:00:00Z").1,
   (parseUTCDateTime_timezone_independent 0 0 "2025-06-01 00:00:00").2.1 (by decide)⟩

/-- C9: whenever the API key is unset or empty, a tick never invokes
`fetchDataFromAPI`; and in API mode with the connection and location
prerequisites met, the tick immediately reports the missing-credential
alert and leaves the state unchanged. -/
theorem empty_credential_no_fetch (s : DriverState) (now : Int) (net : FetchResult)
    (hk : apiKeyEmpty s = true) :
    (updateWeather s now net).fetchAttempted = false ∧
    (s.connected = true → s.locationReceived = true → s.mode = Mode.api →
      (updateWeather s now net).result = UpdateResult.alertNoApiKey ∧
      (updateWeather s now net).state = s) := by
  constructor
  · cases hc : s.connected <;> cases hl : s.locationReceived <;>
      cases hm : s.mode <;> simp [updateWeather, hc, hl, hm, hk]
  · intro h1 h2 h3
    constructor <;> simp [updateWeather, h1, h2, h3, hk]

/-- Closed witness: a fully connected API-mode state with an empty key
string alerts without fetching. -/
theorem empty_credential_no_fetch_witness :
    (updateWeather { storedState with apiKey := some "" } 0
        (FetchResult.ok none)).fetchAttempted = false ∧
    (updateWeather { storedState with apiKey := some "" } 0
        (FetchResult.ok none)).result = UpdateResult.alertNoApiKey := by
  refine ⟨(empty_credential_no_fetch _ 0 _ (by decide)).1, ?_⟩
  exact ((empty_credential_no_fetch _ 0 _ (by decide)).2 (by decide) (by decide)
    (by decide)).1

theorem parse_mkResponse_ok (s : DriverState) (ts : String) (credits : Int)
    (cc te ws dp wd se tr : List ℚ) (now : Int) (hts : parseUTCDateTime ts ≠ -1)
    (h1 : cc.length = 82) (h2 : te.length = 82) (h3 : ws.length = 82)
    (h4 : dp.length = 82) (h5 : wd.length = 82) (h6 : se.length = 82)
    (h7 : tr.length = 82) :
    parseJSONResponse s (some (mkResponse ts credits cc te ws dp wd se tr)) now =
    ({ s with forecastStartTime := parseUTCDateTime ts,
              apiCreditsUsed := credits,
              cloudCover := cc,
              temperature := te.map (fun q => q - 273.15),
              windSpeed := ws.map (fun q => q * 3.6),
              dewPoint := dp.map (fun q => q - 273.15),
              windDirection := wd,
              seeing := se,
              transparency := tr,
              forecastHours := 82,
              forecastValid := true,
              lastFetchTime := now }, ParseOutcome.success) := by
  simp only [parseJSONResponse, mkResponse, entriesOf, Option.getD,
    fillSeries_map_some, List.map_id']
  rw [if_neg hts]
  simp only [lengthMismatch82]
  simp [h1, h2, h3, h4, h5, h6, h7]

theorem parse_mkResponse_mismatch (s : DriverState) (ts : String) (credits : Int)
    (cc te ws dp wd se tr : List ℚ) (now : Int) (hts : parseUTCDateTime ts ≠ -1)
    (hlen : ¬(cc.length = 82 ∧ te.length = 82 ∧ ws.length = 82 ∧ dp.length = 82 ∧
              wd.length = 82 ∧ se.length = 82 ∧ tr.length = 82)) :
    parseJSONResponse s (some (mkResponse ts credits cc te ws dp wd se tr)) now =
    ({ s with forecastStartTime := parseUTCDateTime ts,
              apiCreditsUsed := credits,
              cloudCover := cc,
              temperature := te.map (fun q => q - 273.15),
              windSpeed := ws.map (fun q => q * 3.6),
              dewPoint := dp.map (fun q => q - 273.15),
              windDirection := wd,
              seeing := se,
              transparency := tr,
              forecastHours := (cc.length : Int) }, ParseOutcome.lengthMismatch) := by
  simp only [parseJSONResponse, mkResponse, entriesOf, Option.getD,
    fillSeries_map_some, List.map_id']
  rw [if_neg hts]
  have hb : lengthMismatch82
      { s with forecastStartTime := parseUTCDateTime ts,
               apiCreditsUsed := credits,
               cloudCover := cc,
               temperature := te.map (fun q => q - 273.15),
               windSpeed := ws.map (fun q => q * 3.6),
               dewPoint := dp.map (fun q => q - 273.15),
               windDirection := wd,
               seeing := se,
               transparency := tr,
               forecastHours := (cc.length : Int) } = true := by
    simp [lengthMismatch82]
    omega
  simp [hb]

theorem parse_effects_cases (s : DriverState) (body : Option RawResponse) (now : Int) :
    ((parseJSONResponse s body now).1.forecastValid = s.forecastValid ∧
     (parseJSONResponse s body now).1.lastFetchTime = s.lastFetchTime) ∨
    ((parseJSONResponse s body now).2 = ParseOutcome.success ∧
     (parseJSONResponse s body now).1.forecastValid = true ∧
     (parseJSONResponse s body now).1.lastFetchTime = now) := by
  cases body with
  | none => exact Or.inl ⟨rfl, rfl⟩
  | some j =>
    cases hu : j.UTCStartTime with
    | none =>
      simp only [parseJSONResponse, hu]
      exact Or.inl ⟨by trivial, by trivial⟩
    | some ts =>
      simp only [parseJSONResponse, hu]
      by_cases hts : parseUTCDateTime ts = -1
      · rw [if_pos hts]
        exact Or.inl ⟨rfl, rfl⟩
      · rw [if_neg hts]
        cases hcred : j.APICreditUsedToday with
        | none => exact Or.inl ⟨rfl, rfl⟩
        | some credits =>
          cases hcc : (fillSeries (fun q => q) (entriesOf j.RDPS_CloudCover)).2 with
          | true => exact Or.inl ⟨rfl, rfl⟩
          | false =>
          cases hte : (fillSeries (fun q => q - 273.15) (entriesOf j.RDPS_Temperature)).2 with
          | true => exact Or.inl ⟨rfl, rfl⟩
          | false =>
          cases hws : (fillSeries (fun q => q * 3.6) (entriesOf j.RDPS_WindVelocity)).2 with
          | true => exact Or.inl ⟨rfl, rfl⟩
          | false =>
          cases hdp : (fillSeries (fun q => q - 273.15) (entriesOf j.RDPS_DewPoint)).2 with
          | true => exact Or.inl ⟨rfl, rfl⟩
          | false =>
          cases hwd : (fillSeries (fun q => q) (entriesOf j.RDPS_WindDirection)).2 with
          | true => exact Or.inl ⟨rfl, rfl⟩
          | false =>
          cases hse : (fillSeries (fun q => q) (entriesOf j.Astrospheric_Seeing)).2 with
          | true => exact Or.inl ⟨rfl, rfl⟩
          | false =>
          cases htr : (fillSeries (fun q => q) (entriesOf j.Astrospheric_Transparency)).2 with
          | true => exact Or.inl ⟨rfl, rfl⟩
          | false =>
          simp only [Bool.false_eq_true, if_false, eq_self_iff_true, if_true]
          split
          · exact Or.inl ⟨rfl, rfl⟩
          · exact Or.inr ⟨rfl, rfl, rfl⟩

theorem seriesAt_eq_some_iff (s : DriverState) (i : Nat) (v : WeatherValues) :
    seriesAt s i = some v ↔
      (s.cloudCover[i]? = some v.cloudCover ∧
       s.temperature[i]? = some v.temperature ∧
       s.windSpeed[i]? = some v.windSpeed ∧
       s.dewPoint[i]? = some v.dewPoint ∧
       s.windDirection[i]? = some v.windDirection ∧
       s.seeing[i]? = some v.seeing ∧
       s.transparency[i]? = some v.transparency) := by
  constructor
  · intro h
    simp only [seriesAt, Option.bind_eq_some, Option.some.injEq] at h
    obtain ⟨cc, hcc, te, hte, ws, hws, dp, hdp, wd, hwd, se, hse, tr, htr, hv⟩ := h
    subst hv
    exact ⟨hcc, hte, hws, hdp, hwd, hse, htr⟩
  · rintro ⟨h1, h2, h3, h4, h5, h6, h7⟩
    simp [seriesAt, h1, h2, h3, h4, h5, h6, h7]

theorem seriesAt_total (s : DriverState) (i : Nat)
    (h1 : s.cloudCover.length = 82) (h2 : s.temperature.length = 82)
    (h3 : s.windSpeed.length = 82) (h4 : s.dewPoint.length = 82)
    (h5 : s.windDirection.length = 82) (h6 : s.seeing.length = 82)
    (h7 : s.transparency.length = 82) (hi : i < 82) :
    ∃ v, seriesAt s i = some v := by
  have hcc := getElem?_pos s.cloudCover i (by omega)
  have hte := getElem?_pos s.temperature i (by omega)
  have hws := getElem?_pos s.windSpeed i (by omega)
  have hdp := getElem?_pos s.dewPoint i (by omega)
  have hwd := getElem?_pos s.windDirection i (by omega)
  have hse := getElem?_pos s.seeing i (by omega)
  have htr := getElem?_pos s.transparency i (by omega)
  exact ⟨⟨_, _, _, _, _, _, _⟩,
    (seriesAt_eq_some_iff s i _).mpr ⟨hcc, hte, hws, hdp, hwd, hse, htr⟩⟩

/-- C1: with a cached 82-hour record and a fresh cache, the tick fails
closed with the out-of-range alert exactly when the computed hour index is
negative or at least 82; on that failure the cache is invalidated (so every
subsequent staleness check demands a refresh) and no metric values are
published; otherwise the tick publishes the seven values. -/
theorem hourIndex_range_check_exact (s : DriverState) (now : Int) (net : FetchResult)
    (h1 : s.connected = true) (h2 : s.locationReceived = true) (h3 : s.mode = Mode.api)
    (h4 : apiKeyEmpty s = false) (h5 : ¬(s.latitude = 0 ∧ s.longitude = 0))
    (h6 : s.forecastValid = true) (h7 : now - s.lastFetchTime ≤ 6 * 3600)
    (h8 : s.forecastHours = 82)
    (l1 : s.cloudCover.length = 82) (l2 : s.temperature.length = 82)
    (l3 : s.windSpeed.length = 82) (l4 : s.dewPoint.length = 82)
    (l5 : s.windDirection.length = 82) (l6 : s.seeing.length = 82)
    (l7 : s.transparency.length = 82) :
    ((hourOffsetOf now s.forecastStartTime < 0 ∨
      82 ≤ hourOffsetOf now s.forecastStartTime) →
      (updateWeather s now net).result = UpdateResult.alertOutOfRange ∧
      (updateWeather s now net).state.forecastValid = false ∧
      (∀ later : Int, needsRefresh (updateWeather s now net).state later = true)) ∧
    (0 ≤ hourOffsetOf now s.forecastStartTime →
      hourOffsetOf now s.forecastStartTime < 82 →
      ∃ v, (updateWeather s now net).result = UpdateResult.okValues v ∧
        (updateWeather s now net).state = s) := by
  have hnr : needsRefresh s now = false := by
    simp [needsRefresh, h6]
    omega
  rw [updateWeather_api_fresh s now net h1 h2 h3 h4 h5 hnr]
  constructor
  · intro hrange
    simp only [indexAndReport, h8]
    rw [if_pos hrange]
    refine ⟨rfl, rfl, ?_⟩
    intro later
    simp [needsRefresh]
  · intro ha hb
    obtain ⟨v, hv⟩ := seriesAt_total s (hourOffsetOf now s.forecastStartTime).toNat
      l1 l2 l3 l4 l5 l6 l7 (by omega)
    simp only [indexAndReport, h8]
    rw [if_neg (by omega), hv]
    exact ⟨v, rfl, rfl⟩

/-- Closed witness for the range check: hour index 81 publishes values while
a time one full hour before the forecast start (index -1) raises the
out-of-range alert and invalidates the cache. -/
theorem hourIndex_range_check_exact_witness :
    (∃ v, (updateWeather { storedState with lastFetchTime := 291600 } 291600
        FetchResult.fail).result = UpdateResult.okValues v) ∧
    (updateWeather storedState (-3600) FetchResult.fail).result =
      UpdateResult.alertOutOfRange ∧
    (updateWeather storedState (-3600) FetchResult.fail).state.forecastValid
      = false := by
  refine ⟨?_, ?_⟩
  · obtain ⟨v, hv, _⟩ := (hourIndex_range_check_exact
      { storedState with lastFetchTime := 291600 } 291600 FetchResult.fail
      (by decide) (by decide) (by decide) (by decide) (by decide) (by decide)
      (by decide) (by decide) (by decide) (by decide) (by decide) (by decide)
      (by decide) (by decide) (by decide)).2 (by decide) (by decide)
    exact ⟨v, hv⟩
  · obtain ⟨ha, hb, _⟩ := (hourIndex_range_check_exact storedState (-3600)
      FetchResult.fail
      (by decide) (by decide) (by decide) (by decide) (by decide) (by decide)
      (by decide) (by decide) (by decide) (by decide) (by decide) (by decide)
      (by decide) (by decide) (by decide)).1 (by decide)
    exact ⟨ha, hb⟩

/-- C2 counterexample: from a state holding a previously accepted record
(`forecastValid = true`), a parse attempt failing on a length mismatch
leaves the valid flag TRUE — the claim says a failed attempt sets it to
false — and overwrites the previously stored cloud-cover series — the claim
says the previous record is left unchanged. -/
theorem failed_parse_state_cex :
    (parseJSONResponse storedState (some lengthMismatchResp) 100).2 ≠
      ParseOutcome.success ∧
    (parseJSONResponse storedState (some lengthMismatchResp) 100).1.forecastValid
      = true ∧
    (parseJSONResponse storedState (some lengthMismatchResp) 100).1.cloudCover ≠
      storedState.cloudCover := by decide

/-- C2 amended: a failed fetch leaves the whole state unchanged and reports
the fetch/parse alert; a failed parse leaves `forecastValid` and
`lastFetchTime` unchanged (it does not set the valid flag to false, and it
may overwrite the stored series and start time); and a tick that begins
with an invalid cache never publishes metric values except when a freshly
fetched response parses successfully within that same tick. -/
theorem failed_refresh_state_effects (s : DriverState) (body : Option RawResponse)
    (now : Int) :
    ((parseJSONResponse s body now).2 ≠ ParseOutcome.success →
      (parseJSONResponse s body now).1.forecastValid = s.forecastValid ∧
      (parseJSONResponse s body now).1.lastFetchTime = s.lastFetchTime) ∧
    (s.connected = true → s.locationReceived = true → s.mode = Mode.api →
      apiKeyEmpty s = false → ¬(s.latitude = 0 ∧ s.longitude = 0) →
      needsRefresh s now = true →
      (updateWeather s now FetchResult.fail).state = s ∧
      (updateWeather s now FetchResult.fail).result =
        UpdateResult.alertFetchParse) ∧
    (s.forecastValid = false →
      (∀ v, (updateWeather s now FetchResult.fail).result ≠
        UpdateResult.okValues v) ∧
      (∀ b v, (updateWeather s now (FetchResult.ok b)).result =
          UpdateResult.okValues v →
        (parseJSONResponse s b now).2 = ParseOutcome.success)) := by
  refine ⟨?_, ?_, ?_⟩
  · intro h
    rcases parse_effects_cases s body now with ⟨ha, hb⟩ | ⟨hsucc, _, _⟩
    · exact ⟨ha, hb⟩
    · exact absurd hsucc h
  · intro h1 h2 h3 h4 h5 h6
    rw [updateWeather_api_stale_fail s now h1 h2 h3 h4 h5 h6]
    exact ⟨rfl, rfl⟩
  · intro hv
    have hnr : needsRefresh s now = true := by simp [needsRefresh, hv]
    constructor
    · intro v
      cases hc : s.connected
      · simp [updateWeather, hc]
      · cases hl : s.locationReceived
        · simp [updateWeather, hc, hl]
        · cases hm : s.mode
          · cases hk : apiKeyEmpty s
            · by_cases hloc : s.latitude = 0 ∧ s.longitude = 0
              · simp [updateWeather, hc, hl, hm, hk, hloc]
              · rw [updateWeather_api_stale_fail s now hc hl hm hk hloc hnr]
                simp
            · simp [updateWeather, hc, hl, hm, hk]
          · simp [updateWeather, hc, hl, hm]
    · intro b v h
      cases hc : s.connected
      · simp [updateWeather, hc] at h
      · cases hl : s.locationReceived
        · simp [updateWeather, hc, hl] at h
        · cases hm : s.mode
          · cases hk : apiKeyEmpty s
            · by_cases hloc : s.latitude = 0 ∧ s.longitude = 0
              · simp [updateWeather, hc, hl, hm, hk, hloc] at h
              · by_cases hpo : (parseJSONResponse s b now).2 = ParseOutcome.success
                · exact hpo
                · rw [updateWeather_api_stale_parse_fail s now b hc hl hm hk hloc
                    hnr hpo] at h
                  simp at h
            · simp [updateWeather, hc, hl, hm, hk] at h
          · simp [updateWeather, hc, hl, hm] at h

/-- Closed witness for the amended refresh-failure behaviour at concrete
inputs: the length-mismatch parse keeps the valid flag and fetch timestamp,
and a transport failure on a stale tick leaves the state untouched. -/
theorem failed_refresh_state_effects_witness :
    ((parseJSONResponse storedState (some lengthMismatchResp) 100).1.forecastValid
        = storedState.forecastValid ∧
      (parseJSONResponse storedState (some lengthMismatchResp) 100).1.lastFetchTime
        = storedState.lastFetchTime) ∧
    (updateWeather storedState 30000 FetchResult.fail).state = storedState := by
  refine ⟨?_, ?_⟩
  · exact (failed_refresh_state_effects storedState (some lengthMismatchResp)
      100).1 (by decide)
  · exact ((failed_refresh_state_effects storedState (some lengthMismatchResp)
      30000).2.1 (by decide) (by decide) (by decide) (by decide) (by decide)
      (by decide)).1

theorem fillSeries_no_exception (f : ℚ → ℚ) (entries : List (Option ℚ))
    (h : (none : Option ℚ) ∉ entries) : (fillSeries f entries).2 = false := by
  induction entries with
  | nil => rfl
  | cons x xs ih =>
    cases x with
    | none => exact absurd (List.mem_cons_self _ _) h
    | some v =>
      have hx : (none : Option ℚ) ∉ xs := fun hm => h (List.mem_cons_of_mem _ hm)
      simp [fillSeries, ih hx]

theorem parse_exception_at_1 (s : DriverState) (now : Int) (j : RawResponse)
    (ts : String) (credits : Int)
    (hu : j.UTCStartTime = some ts) (hts : parseUTCDateTime ts ≠ -1)
    (hcred : j.APICreditUsedToday = some credits)
    (hk : (fillSeries (fun q => q) (entriesOf j.RDPS_CloudCover)).2 = true) :
    (parseJSONResponse s (some j) now).2 = ParseOutcome.jsonException ∧
    (parseJSONResponse s (some j) now).1.cloudCover = (fillSeries (fun q => q) (entriesOf j.RDPS_CloudCover)).1 := by
  simp only [parseJSONResponse, hu]
  rw [if_neg hts]
  simp only [hcred]
  rw [hk, if_pos rfl]
  exact ⟨rfl, rfl⟩

theorem parse_exception_at_2 (s : DriverState) (now : Int) (j : RawResponse)
    (ts : String) (credits : Int)
    (hu : j.UTCStartTime = some ts) (hts : parseUTCDateTime ts ≠ -1)
    (hcred : j.APICreditUsedToday = some credits)
    (h1 : (fillSeries (fun q => q) (entriesOf j.RDPS_CloudCover)).2 = false)
    (hk : (fillSeries (fun q => q - 273.15) (entriesOf j.RDPS_Temperature)).2 = true) :
    (parseJSONResponse s (some j) now).2 = ParseOutcome.jsonException ∧
    (parseJSONResponse s (some j) now).1.temperature = (fillSeries (fun q => q - 273.15) (entriesOf j.RDPS_Temperature)).1 := by
  simp only [parseJSONResponse, hu]
  rw [if_neg hts]
  simp only [hcred]
  rw [h1, if_neg Bool.false_ne_true, hk, if_pos rfl]
  exact ⟨rfl, rfl⟩

theorem parse_exception_at_3 (s : DriverState) (now : Int) (j : RawResponse)
    (ts : String) (credits : Int)
    (hu : j.UTCStartTime = some ts) (hts : parseUTCDateTime ts ≠ -1)
    (hcred : j.APICreditUsedToday = some credits)
    (h1 : (fillSeries (fun q => q) (entriesOf j.RDPS_CloudCover)).2 = false)
    (h2 : (fillSeries (fun q => q - 273.15) (entriesOf j.RDPS_Temperature)).2 = false)
    (hk : (fillSeries (fun q => q * 3.6) (entriesOf j.RDPS_WindVelocity)).2 = true) :
    (parseJSONResponse s (some j) now).2 = ParseOutcome.jsonException ∧
    (parseJSONResponse s (some j) now).1.windSpeed = (fillSeries (fun q => q * 3.6) (entriesOf j.RDPS_WindVelocity)).1 := by
  simp only [parseJSONResponse, hu]
  rw [if_neg hts]
  simp only [hcred]
  rw [h1, if_neg Bool.false_ne_true, h2, if_neg Bool.false_ne_true, hk, if_pos rfl]
  exact ⟨rfl, rfl⟩

theorem parse_exception_at_4 (s : DriverState) (now : Int) (j : RawResponse)
    (ts : String) (credits : Int)
    (hu : j.UTCStartTime = some ts) (hts : parseUTCDateTime ts ≠ -1)
    (hcred : j.APICreditUsedToday = some credits)
    (h1 : (fillSeries (fun q => q) (entriesOf j.RDPS_CloudCover)).2 = false)
    (h2 : (fillSeries (fun q => q - 273.15) (entriesOf j.RDPS_Temperature)).2 = false)
    (h3 : (fillSeries (fun q => q * 3.6) (entriesOf j.RDPS_WindVelocity)).2 = false)
    (hk : (fillSeries (fun q => q - 273.15) (entriesOf j.RDPS_DewPoint)).2 = true) :
    (parseJSONResponse s (some j) now).2 = ParseOutcome.jsonException ∧
    (parseJSONResponse s (some j) now).1.dewPoint = (fillSeries (fun q => q - 273.15) (entriesOf j.RDPS_DewPoint)).1 := by
  simp only [parseJSONResponse, hu]
  rw [if_neg hts]
  simp only [hcred]
  rw [h1, if_neg Bool.false_ne_true, h2, if_neg Bool.false_ne_true, h3, if_neg Bool.false_ne_true, hk, if_pos rfl]
  exact ⟨rfl, rfl⟩

theorem parse_exception_at_5 (s : DriverState) (now : Int) (j : RawResponse)
    (ts : String) (credits : Int)
    (hu : j.UTCStartTime = some ts) (hts : parseUTCDateTime ts ≠ -1)
    (hcred : j.APICreditUsedToday = some credits)
    (h1 : (fillSeries (fun q => q) (entriesOf j.RDPS_CloudCover)).2 = false)
    (h2 : (fillSeries (fun q => q - 273.15) (entriesOf j.RDPS_Temperature)).2 = false)
    (h3 : (fillSeries (fun q => q * 3.6) (entriesOf j.RDPS_WindVelocity)).2 = false)
    (h4 : (fillSeries (fun q => q - 273.15) (entriesOf j.RDPS_DewPoint)).2 = false)
    (hk : (fillSeries (fun q => q) (entriesOf j.RDPS_WindDirection)).2 = true) :
    (parseJSONResponse s (some j) now).2 = ParseOutcome.jsonException ∧
    (parseJSONResponse s (some j) now).1.windDirection = (fillSeries (fun q => q) (entriesOf j.RDPS_WindDirection)).1 := by
  simp only [parseJSONResponse, hu]
  rw [if_neg hts]
  simp only [hcred]
  rw [h1, if_neg Bool.false_ne_true, h2, if_neg Bool.false_ne_true, h3, if_neg Bool.false_ne_true, h4, if_neg Bool.false_ne_true, hk, if_pos rfl]
  exact ⟨rfl, rfl⟩

theorem parse_exception_at_6 (s : DriverState) (now : Int) (j : RawResponse)
    (ts : String) (credits : Int)
    (hu : j.UTCStartTime = some ts) (hts : parseUTCDateTime ts ≠ -1)
    (hcred : j.APICreditUsedToday = some credits)
    (h1 : (fillSeries (fun q => q) (entriesOf j.RDPS_CloudCover)).2 = false)
    (h2 : (fillSeries (fun q => q - 273.15) (entriesOf j.RDPS_Temperature)).2 = false)
    (h3 : (fillSeries (fun q => q * 3.6) (entriesOf j.RDPS_WindVelocity)).2 = false)
    (h4 : (fillSeries (fun q => q - 273.15) (entriesOf j.RDPS_DewPoint)).2 = false)
    (h5 : (fillSeries (fun q => q) (entriesOf j.RDPS_WindDirection)).2 = false)
    (hk : (fillSeries (fun q => q) (entriesOf j.Astrospheric_Seeing)).2 = true) :
    (parseJSONResponse s (some j) now).2 = ParseOutcome.jsonException ∧
    (parseJSONResponse s (some j) now).1.seeing = (fillSeries (fun q => q) (entriesOf j.Astrospheric_Seeing)).1 := by
  simp only [parseJSONResponse, hu]
  rw [if_neg hts]
  simp only [hcred]
  rw [h1, if_neg Bool.false_ne_true, h2, if_neg Bool.false_ne_true, h3, if_neg Bool.false_ne_true, h4, if_neg Bool.false_ne_true, h5, if_neg Bool.false_ne_true, hk, if_pos rfl]
  exact ⟨rfl, rfl⟩

theorem parse_exception_at_7 (s : DriverState) (now : Int) (j : RawResponse)
    (ts : String) (credits : Int)
    (hu : j.UTCStartTime = some ts) (hts : parseUTCDateTime ts ≠ -1)
    (hcred : j.APICreditUsedToday = some credits)
    (h1 : (fillSeries (fun q => q) (entriesOf j.RDPS_CloudCover)).2 = false)
    (h2 : (fillSeries (fun q => q - 273.15) (entriesOf j.RDPS_Temperature)).2 = false)
    (h3 : (fillSeries (fun q => q * 3.6) (entriesOf j.RDPS_WindVelocity)).2 = false)
    (h4 : (fillSeries (fun q => q - 273.15) (entriesOf j.RDPS_DewPoint)).2 = false)
    (h5 : (fillSeries (fun q => q) (entriesOf j.RDPS_WindDirection)).2 = false)
    (h6 : (fillSeries (fun q => q) (entriesOf j.Astrospheric_Seeing)).2 = false)
    (hk : (fillSeries (fun q => q) (entriesOf j.Astrospheric_Transparency)).2 = true) :
    (parseJSONResponse s (some j) now).2 = ParseOutcome.jsonException ∧
    (parseJSONResponse s (some j) now).1.transparency = (fillSeries (fun q => q) (entriesOf j.Astrospheric_Transparency)).1 := by
  simp only [parseJSONResponse, hu]
  rw [if_neg hts]
  simp only [hcred]
  rw [h1, if_neg Bool.false_ne_true, h2, if_neg Bool.false_ne_true, h3, if_neg Bool.false_ne_true, h4, if_neg Bool.false_ne_true, h5, if_neg Bool.false_ne_true, h6, if_neg Bool.false_ne_true, hk, if_pos rfl]
  exact ⟨rfl, rfl⟩

theorem parse_missing_array (s : DriverState) (now : Int) (j : RawResponse)
    (ts : String) (credits : Int)
    (hu : j.UTCStartTime = some ts) (hts : parseUTCDateTime ts ≠ -1)
    (hcred : j.APICreditUsedToday = some credits)
    (h1 : (fillSeries (fun q => q) (entriesOf j.RDPS_CloudCover)).2 = false)
    (h2 : (fillSeries (fun q => q - 273.15) (entriesOf j.RDPS_Temperature)).2 = false)
    (h3 : (fillSeries (fun q => q * 3.6) (entriesOf j.RDPS_WindVelocity)).2 = false)
    (h4 : (fillSeries (fun q => q - 273.15) (entriesOf j.RDPS_DewPoint)).2 = false)
    (h5 : (fillSeries (fun q => q) (entriesOf j.RDPS_WindDirection)).2 = false)
    (h6 : (fillSeries (fun q => q) (entriesOf j.Astrospheric_Seeing)).2 = false)
    (h7 : (fillSeries (fun q => q) (entriesOf j.Astrospheric_Transparency)).2 = false)
    (hmiss : j.RDPS_CloudCover = none ∨ j.RDPS_Temperature = none ∨ j.RDPS_WindVelocity = none ∨ j.RDPS_DewPoint = none ∨ j.RDPS_WindDirection = none ∨ j.Astrospheric_Seeing = none ∨ j.Astrospheric_Transparency = none) :
    (parseJSONResponse s (some j) now).2 = ParseOutcome.lengthMismatch := by
  simp only [parseJSONResponse, hu]
  rw [if_neg hts]
  simp only [hcred]
  rw [h1, if_neg Bool.false_ne_true, h2, if_neg Bool.false_ne_true, h3, if_neg Bool.false_ne_true, h4, if_neg Bool.false_ne_true, h5, if_neg Bool.false_ne_true, h6, if_neg Bool.false_ne_true, h7, if_neg Bool.false_ne_true]
  rcases hmiss with h | h | h | h | h | h | h <;>
    simp [lengthMismatch82, h, entriesOf, fillSeries]

/-- C5 amended: a missing or non-numeric `Value.ActualValue` for an
individual hour of ANY of the seven metric series is fatal, not tolerated:
the `json::exception` it raises aborts the whole parse through the catch
block, and no 0.0 is substituted — the series being rebuilt when the
exception fires retains only the samples before the offending hour.  A
missing top-level array for any metric is also fatal, surfacing as a
length mismatch because the null inserted by `operator[]` yields an empty
series. -/
theorem missing_actual_value_fatal (s : DriverState) (now : Int) (j : RawResponse)
    (ts : String) (credits : Int)
    (hu : j.UTCStartTime = some ts) (hts : parseUTCDateTime ts ≠ -1)
    (hcred : j.APICreditUsedToday = some credits) :
    ((none : Option ℚ) ∈ entriesOf j.RDPS_CloudCover ∨
     (none : Option ℚ) ∈ entriesOf j.RDPS_Temperature ∨
     (none : Option ℚ) ∈ entriesOf j.RDPS_WindVelocity ∨
     (none : Option ℚ) ∈ entriesOf j.RDPS_DewPoint ∨
     (none : Option ℚ) ∈ entriesOf j.RDPS_WindDirection ∨
     (none : Option ℚ) ∈ entriesOf j.Astrospheric_Seeing ∨
     (none : Option ℚ) ∈ entriesOf j.Astrospheric_Transparency →
      (parseJSONResponse s (some j) now).2 = ParseOutcome.jsonException) ∧
    (∀ entries, j.RDPS_CloudCover = some entries → (none : Option ℚ) ∈ entries →
      (parseJSONResponse s (some j) now).2 = ParseOutcome.jsonException ∧
      (parseJSONResponse s (some j) now).1.cloudCover = (fillSeries (fun q => q) entries).1) ∧
    ((none : Option ℚ) ∉ entriesOf j.RDPS_CloudCover →
      ∀ entries, j.RDPS_Temperature = some entries → (none : Option ℚ) ∈ entries →
      (parseJSONResponse s (some j) now).2 = ParseOutcome.jsonException ∧
      (parseJSONResponse s (some j) now).1.temperature = (fillSeries (fun q => q - 273.15) entries).1) ∧
    ((none : Option ℚ) ∉ entriesOf j.RDPS_CloudCover →
      (none : Option ℚ) ∉ entriesOf j.RDPS_Temperature →
      ∀ entries, j.RDPS_WindVelocity = some entries → (none : Option ℚ) ∈ entries →
      (parseJSONResponse s (some j) now).2 = ParseOutcome.jsonException ∧
      (parseJSONResponse s (some j) now).1.windSpeed = (fillSeries (fun q => q * 3.6) entries).1) ∧
    ((none : Option ℚ) ∉ entriesOf j.RDPS_CloudCover →
      (none : Option ℚ) ∉ entriesOf j.RDPS_Temperature →
      (none : Option ℚ) ∉ entriesOf j.RDPS_WindVelocity →
      ∀ entries, j.RDPS_DewPoint = some entries → (none : Option ℚ) ∈ entries →
      (parseJSONResponse s (some j) now).2 = ParseOutcome.jsonException ∧
      (parseJSONResponse s (some j) now).1.dewPoint = (fillSeries (fun q => q - 273.15) entries).1) ∧
    ((none : Option ℚ) ∉ entriesOf j.RDPS_CloudCover →
      (none : Option ℚ) ∉ entriesOf j.RDPS_Temperature →
      (none : Option ℚ) ∉ entriesOf j.RDPS_WindVelocity →
      (none : Option ℚ) ∉ entriesOf j.RDPS_DewPoint →
      ∀ entries, j.RDPS_WindDirection = some entries → (none : Option ℚ) ∈ entries →
      (parseJSONResponse s (some j) now).2 = ParseOutcome.jsonException ∧
      (parseJSONResponse s (some j) now).1.windDirection = (fillSeries (fun q => q) entries).1) ∧
    ((none : Option ℚ) ∉ entriesOf j.RDPS_CloudCover →
      (none : Option ℚ) ∉ entriesOf j.RDPS_Temperature →
      (none : Option ℚ) ∉ entriesOf j.RDPS_WindVelocity →
      (none : Option ℚ) ∉ entriesOf j.RDPS_DewPoint →
      (none : Option ℚ) ∉ entriesOf j.RDPS_WindDirection →
      ∀ entries, j.Astrospheric_Seeing = some entries → (none : Option ℚ) ∈ entries →
      (parseJSONResponse s (some j) now).2 = ParseOutcome.jsonException ∧
      (parseJSONResponse s (some j) now).1.seeing = (fillSeries (fun q => q) entries).1) ∧
    ((none : Option ℚ) ∉ entriesOf j.RDPS_CloudCover →
      (none : Option ℚ) ∉ entriesOf j.RDPS_Temperature →
      (none : Option ℚ) ∉ entriesOf j.RDPS_WindVelocity →
      (none : Option ℚ) ∉ entriesOf j.RDPS_DewPoint →
      (none : Option ℚ) ∉ entriesOf j.RDPS_WindDirection →
      (none : Option ℚ) ∉ entriesOf j.Astrospheric_Seeing →
      ∀ entries, j.Astrospheric_Transparency = some entries → (none : Option ℚ) ∈ entries →
      (parseJSONResponse s (some j) now).2 = ParseOutcome.jsonException ∧
      (parseJSONResponse s (some j) now).1.transparency = (fillSeries (fun q => q) entries).1) ∧
    ((j.RDPS_CloudCover = none ∨ j.RDPS_Temperature = none ∨ j.RDPS_WindVelocity = none ∨ j.RDPS_DewPoint = none ∨ j.RDPS_WindDirection = none ∨ j.Astrospheric_Seeing = none ∨ j.Astrospheric_Transparency = none) →
      (none : Option ℚ) ∉ entriesOf j.RDPS_CloudCover →
      (none : Option ℚ) ∉ entriesOf j.RDPS_Temperature →
      (none : Option ℚ) ∉ entriesOf j.RDPS_WindVelocity →
      (none : Option ℚ) ∉ entriesOf j.RDPS_DewPoint →
      (none : Option ℚ) ∉ entriesOf j.RDPS_WindDirection →
      (none : Option ℚ) ∉ entriesOf j.Astrospheric_Seeing →
      (none : Option ℚ) ∉ entriesOf j.Astrospheric_Transparency →
      (parseJSONResponse s (some j) now).2 = ParseOutcome.lengthMismatch) := by
  refine ⟨?_, ?_, ?_, ?_, ?_, ?_, ?_, ?_, ?_⟩
  · intro h
    rcases h with h | h | h | h | h | h | h
    · exact (parse_exception_at_1 s now j ts credits hu hts hcred
              (fillSeries_exception _ _ h)).1
    · by_cases m1 : (none : Option ℚ) ∈ entriesOf j.RDPS_CloudCover
      · exact (parse_exception_at_1 s now j ts credits hu hts hcred
              (fillSeries_exception _ _ m1)).1
      · exact (parse_exception_at_2 s now j ts credits hu hts hcred
              (fillSeries_no_exception _ _ m1) (fillSeries_exception _ _ h)).1
    · by_cases m1 : (none : Option ℚ) ∈ entriesOf j.RDPS_CloudCover
      · exact (parse_exception_at_1 s now j ts credits hu hts hcred
              (fillSeries_exception _ _ m1)).1
      · by_cases m2 : (none : Option ℚ) ∈ entriesOf j.RDPS_Temperature
        · exact (parse_exception_at_2 s now j ts credits hu hts hcred
              (fillSeries_no_exception _ _ m1) (fillSeries_exception _ _ m2)).1
        · exact (parse_exception_at_3 s now j ts credits hu hts hcred
              (fillSeries_no_exception _ _ m1) (fillSeries_no_exception _ _ m2) (fillSeries_exception _ _ h)).1
    · by_cases m1 : (none : Option ℚ) ∈ entriesOf j.RDPS_CloudCover
      · exact (parse_exception_at_1 s now j ts credits hu hts hcred
              (fillSeries_exception _ _ m1)).1
      · by_cases m2 : (none : Option ℚ) ∈ entriesOf j.RDPS_Temperature
        · exact (parse_exception_at_2 s now j ts credits hu hts hcred
              (fillSeries_no_exception _ _ m1) (fillSeries_exception _ _ m2)).1
        · by_cases m3 : (none : Option ℚ) ∈ entriesOf j.RDPS_WindVelocity
          · exact (parse_exception_at_3 s now j ts credits hu hts hcred
              (fillSeries_no_exception _ _ m1) (fillSeries_no_exception _ _ m2) (fillSeries_exception _ _ m3)).1
          · exact (parse_exception_at_4 s now j ts credits hu hts hcred
              (fillSeries_no_exception _ _ m1) (fillSeries_no_exception _ _ m2) (fillSeries_no_exception _ _ m3) (fillSeries_exception _ _ h)).1
    · by_cases m1 : (none : Option ℚ) ∈ entriesOf j.RDPS_CloudCover
      · exact (parse_exception_at_1 s now j ts credits hu hts hcred
              (fillSeries_exception _ _ m1)).1
      · by_cases m2 : (none : Option ℚ) ∈ entriesOf j.RDPS_Temperature
        · exact (parse_exception_at_2 s now j ts credits hu hts hcred
              (fillSeries_no_exception _ _ m1) (fillSeries_exception _ _ m2)).1
        · by_cases m3 : (none : Option ℚ) ∈ entriesOf j.RDPS_WindVelocity
          · exact (parse_exception_at_3 s now j ts credits hu hts hcred
              (fillSeries_no_exception _ _ m1) (fillSeries_no_exception _ _ m2) (fillSeries_exception _ _ m3)).1
          · by_cases m4 : (none : Option ℚ) ∈ entriesOf j.RDPS_DewPoint
            · exact (parse_exception_at_4 s now j ts credits hu hts hcred
              (fillSeries_no_exception _ _ m1) (fillSeries_no_exception _ _ m2) (fillSeries_no_exception _ _ m3) (fillSeries_exception _ _ m4)).1
            · exact (parse_exception_at_5 s now j ts credits hu hts hcred
              (fillSeries_no_exception _ _ m1) (fillSeries_no_exception _ _ m2) (fillSeries_no_exception _ _ m3) (fillSeries_no_exception _ _ m4) (fillSeries_exception _ _ h)).1
    · by_cases m1 : (none : Option ℚ) ∈ entriesOf j.RDPS_CloudCover
      · exact (parse_exception_at_1 s now j ts credits hu hts hcred
              (fillSeries_exception _ _ m1)).1
      · by_cases m2 : (none : Option ℚ) ∈ entriesOf j.RDPS_Temperature
        · exact (parse_exception_at_2 s now j ts credits hu hts hcred
              (fillSeries_no_exception _ _ m1) (fillSeries_exception _ _ m2)).1
        · by_cases m3 : (none : Option ℚ) ∈ entriesOf j.RDPS_WindVelocity
          · exact (parse_exception_at_3 s now j ts credits hu hts hcred
              (fillSeries_no_exception _ _ m1) (fillSeries_no_exception _ _ m2) (fillSeries_exception _ _ m3)).1
          · by_cases m4 : (none : Option ℚ) ∈ entriesOf j.RDPS_DewPoint
            · exact (parse_exception_at_4 s now j ts credits hu hts hcred
              (fillSeries_no_exception _ _ m1) (fillSeries_no_exception _ _ m2) (fillSeries_no_exception _ _ m3) (fillSeries_exception _ _ m4)).1
            · by_cases m5 : (none : Option ℚ) ∈ entriesOf j.RDPS_WindDirection
              · exact (parse_exception_at_5 s now j ts credits hu hts hcred
              (fillSeries_no_exception _ _ m1) (fillSeries_no_exception _ _ m2) (fillSeries_no_exception _ _ m3) (fillSeries_no_exception _ _ m4) (fillSeries_exception _ _ m5)).1
              · exact (parse_exception_at_6 s now j ts credits hu hts hcred
              (fillSeries_no_exception _ _ m1) (fillSeries_no_exception _ _ m2) (fillSeries_no_exception _ _ m3) (fillSeries_no_exception _ _ m4) (fillSeries_no_exception _ _ m5) (fillSeries_exception _ _ h)).1
    · by_cases m1 : (none : Option ℚ) ∈ entriesOf j.RDPS_CloudCover
      · exact (parse_exception_at_1 s now j ts credits hu hts hcred
              (fillSeries_exception _ _ m1)).1
      · by_cases m2 : (none : Option ℚ) ∈ entriesOf j.RDPS_Temperature
        · exact (parse_exception_at_2 s now j ts credits hu hts hcred
              (fillSeries_no_exception _ _ m1) (fillSeries_exception _ _ m2)).1
        · by_cases m3 : (none : Option ℚ) ∈ entriesOf j.RDPS_WindVelocity
          · exact (parse_exception_at_3 s now j ts credits hu hts hcred
              (fillSeries_no_exception _ _ m1) (fillSeries_no_exception _ _ m2) (fillSeries_exception _ _ m3)).1
          · by_cases m4 : (none : Option ℚ) ∈ entriesOf j.RDPS_DewPoint
            · exact (parse_exception_at_4 s now j ts credits hu hts hcred
              (fillSeries_no_exception _ _ m1) (fillSeries_no_exception _ _ m2) (fillSeries_no_exception _ _ m3) (fillSeries_exception _ _ m4)).1
            · by_cases m5 : (none : Option ℚ) ∈ entriesOf j.RDPS_WindDirection
              · exact (parse_exception_at_5 s now j ts credits hu hts hcred
              (fillSeries_no_exception _ _ m1) (fillSeries_no_exception _ _ m2) (fillSeries_no_exception _ _ m3) (fillSeries_no_exception _ _ m4) (fillSeries_exception _ _ m5)).1
              · by_cases m6 : (none : Option ℚ) ∈ entriesOf j.Astrospheric_Seeing
                · exact (parse_exception_at_6 s now j ts credits hu hts hcred
              (fillSeries_no_exception _ _ m1) (fillSeries_no_exception _ _ m2) (fillSeries_no_exception _ _ m3) (fillSeries_no_exception _ _ m4) (fillSeries_no_exception _ _ m5) (fillSeries_exception _ _ m6)).1
                · exact (parse_exception_at_7 s now j ts credits hu hts hcred
              (fillSeries_no_exception _ _ m1) (fillSeries_no_exception _ _ m2) (fillSeries_no_exception _ _ m3) (fillSeries_no_exception _ _ m4) (fillSeries_no_exception _ _ m5) (fillSeries_no_exception _ _ m6) (fillSeries_exception _ _ h)).1
  · intro entries he hmem
    have hk : (fillSeries (fun q => q) (entriesOf j.RDPS_CloudCover)).2 = true := by
      rw [he]
      exact fillSeries_exception _ _ hmem
    obtain ⟨ho, hst⟩ := (parse_exception_at_1 s now j ts credits hu hts hcred
            hk)
    refine ⟨ho, ?_⟩
    rw [hst, he]
    simp [entriesOf]
  · intro hn1 entries he hmem
    have hk : (fillSeries (fun q => q - 273.15) (entriesOf j.RDPS_Temperature)).2 = true := by
      rw [he]
      exact fillSeries_exception _ _ hmem
    obtain ⟨ho, hst⟩ := (parse_exception_at_2 s now j ts credits hu hts hcred
            (fillSeries_no_exception _ _ hn1) hk)
    refine ⟨ho, ?_⟩
    rw [hst, he]
    simp [entriesOf]
  · intro hn1 hn2 entries he hmem
    have hk : (fillSeries (fun q => q * 3.6) (entriesOf j.RDPS_WindVelocity)).2 = true := by
      rw [he]
      exact fillSeries_exception _ _ hmem
    obtain ⟨ho, hst⟩ := (parse_exception_at_3 s now j ts credits hu hts hcred
            (fillSeries_no_exception _ _ hn1) (fillSeries_no_exception _ _ hn2) hk)
    refine ⟨ho, ?_⟩
    rw [hst, he]
    simp [entriesOf]
  · intro hn1 hn2 hn3 entries he hmem
    have hk : (fillSeries (fun q => q - 273.15) (entriesOf j.RDPS_DewPoint)).2 = true := by
      rw [he]
      exact fillSeries_exception _ _ hmem
    obtain ⟨ho, hst⟩ := (parse_exception_at_4 s now j ts credits hu hts hcred
            (fillSeries_no_exception _ _ hn1) (fillSeries_no_exception _ _ hn2) (fillSeries_no_exception _ _ hn3) hk)
    refine ⟨ho, ?_⟩
    rw [hst, he]
    simp [entriesOf]
  · intro hn1 hn2 hn3 hn4 entries he hmem
    have hk : (fillSeries (fun q => q) (entriesOf j.RDPS_WindDirection)).2 = true := by
      rw [he]
      exact fillSeries_exception _ _ hmem
    obtain ⟨ho, hst⟩ := (parse_exception_at_5 s now j ts credits hu hts hcred
            (fillSeries_no_exception _ _ hn1) (fillSeries_no_exception _ _ hn2) (fillSeries_no_exception _ _ hn3) (fillSeries_no_exception _ _ hn4) hk)
    refine ⟨ho, ?_⟩
    rw [hst, he]
    simp [entriesOf]
  · intro hn1 hn2 hn3 hn4 hn5 entries he hmem
    have hk : (fillSeries (fun q => q) (entriesOf j.Astrospheric_Seeing)).2 = true := by
      rw [he]
      exact fillSeries_exception _ _ hmem
    obtain ⟨ho, hst⟩ := (parse_exception_at_6 s now j ts credits hu hts hcred
            (fillSeries_no_exception _ _ hn1) (fillSeries_no_exception _ _ hn2) (fillSeries_no_exception _ _ hn3) (fillSeries_no_exception _ _ hn4) (fillSeries_no_exception _ _ hn5) hk)
    refine ⟨ho, ?_⟩
    rw [hst, he]
    simp [entriesOf]
  · intro hn1 hn2 hn3 hn4 hn5 hn6 entries he hmem
    have hk : (fillSeries (fun q => q) (entriesOf j.Astrospheric_Transparency)).2 = true := by
      rw [he]
      exact fillSeries_exception _ _ hmem
    obtain ⟨ho, hst⟩ := (parse_exception_at_7 s now j ts credits hu hts hcred
            (fillSeries_no_exception _ _ hn1) (fillSeries_no_exception _ _ hn2) (fillSeries_no_exception _ _ hn3) (fillSeries_no_exception _ _ hn4) (fillSeries_no_exception _ _ hn5) (fillSeries_no_exception _ _ hn6) hk)
    refine ⟨ho, ?_⟩
    rw [hst, he]
    simp [entriesOf]
  · intro hmiss hn1 hn2 hn3 hn4 hn5 hn6 hn7
    exact parse_missing_array s now j ts credits hu hts hcred
      (fillSeries_no_exception _ _ hn1) (fillSeries_no_exception _ _ hn2)
      (fillSeries_no_exception _ _ hn3) (fillSeries_no_exception _ _ hn4)
      (fillSeries_no_exception _ _ hn5) (fillSeries_no_exception _ _ hn6)
      (fillSeries_no_exception _ _ hn7) hmiss

/-- C5 counterexample: on a response whose only defect is one missing
`ActualValue` in the first cloud-cover hour, the parse FAILS through the
exception path — the claim says parsing tolerates it, substitutes 0.0 for
that hour and continues.  Nothing is substituted: the rebuilt cloud-cover
series is empty, not 82 samples with a 0.0 at the bad hour. -/
theorem missing_actual_value_cex :
    (parseJSONResponse initialState (some missingSampleResp) 5).2 =
      ParseOutcome.jsonException ∧
    (parseJSONResponse initialState (some missingSampleResp) 5).1.cloudCover
      = [] := by decide

/-- Closed witness for the amended fatal-sample behaviour, applied at a
bad cloud-cover sample, at a bad seeing sample, and at a response missing
its cloud-cover array. -/
theorem missing_actual_value_fatal_witness :
    (parseJSONResponse initialState (some missingSampleResp) 5).2 =
      ParseOutcome.jsonException ∧
    (parseJSONResponse initialState (some missingSeeingResp) 5).2 =
      ParseOutcome.jsonException ∧
    (parseJSONResponse initialState
        (some { missingSampleResp with RDPS_CloudCover := none }) 5).2 =
      ParseOutcome.lengthMismatch := by
  refine ⟨?_, ?_, ?_⟩
  · exact ((missing_actual_value_fatal initialState 5 missingSampleResp
      "2025-06-01T00:00:00Z" 3 rfl (by decide) rfl).2.1
      (none :: List.replicate 81 (some 1)) rfl (by decide)).1
  · exact ((missing_actual_value_fatal initialState 5 missingSeeingResp
      "2025-06-01T00:00:00Z" 3 rfl (by decide) rfl).2.2.2.2.2.2.1
      (by decide) (by decide) (by decide) (by decide) (by decide)
      (none :: List.replicate 81 (some 1)) rfl (by decide)).1
  · exact (missing_actual_value_fatal initialState 5
      { missingSampleResp with RDPS_CloudCover := none }
      "2025-06-01T00:00:00Z" 3 rfl (by decide) rfl).2.2.2.2.2.2.2.2
      (Or.inl rfl) (by decide) (by decide) (by decide) (by decide)
      (by decide) (by decide) (by decide)

/-- C6: for a response whose timestamp parses and whose seven series are
present with every sample numeric: when every series has exactly 82 samples
the parse succeeds, the stored series all have length 82 and the record is
accepted; when any series length differs from 82 the parse fails through
the length-mismatch return and the record is not accepted (the valid flag
and the fetch timestamp are left untouched). -/
theorem parse_length_82_iff (s : DriverState) (ts : String) (credits : Int)
    (cc te ws dp wd se tr : List ℚ) (now : Int)
    (hts : parseUTCDateTime ts ≠ -1) :
    (cc.length = 82 ∧ te.length = 82 ∧ ws.length = 82 ∧ dp.length = 82 ∧
     wd.length = 82 ∧ se.length = 82 ∧ tr.length = 82 →
      (parseJSONResponse s (some (mkResponse ts credits cc te ws dp wd se tr))
          now).2 = ParseOutcome.success ∧
      (parseJSONResponse s (some (mkResponse ts credits cc te ws dp wd se tr))
          now).1.cloudCover.length = 82 ∧
      (parseJSONResponse s (some (mkResponse ts credits cc te ws dp wd se tr))
          now).1.temperature.length = 82 ∧
      (parseJSONResponse s (some (mkResponse ts credits cc te ws dp wd se tr))
          now).1.windSpeed.length = 82 ∧
      (parseJSONResponse s (some (mkResponse ts credits cc te ws dp wd se tr))
          now).1.dewPoint.length = 82 ∧
      (parseJSONResponse s (some (mkResponse ts credits cc te ws dp wd se tr))
          now).1.windDirection.length = 82 ∧
      (parseJSONResponse s (some (mkResponse ts credits cc te ws dp wd se tr))
          now).1.seeing.length = 82 ∧
      (parseJSONResponse s (some (mkResponse ts credits cc te ws dp wd se tr))
          now).1.transparency.length = 82 ∧
      (parseJSONResponse s (some (mkResponse ts credits cc te ws dp wd se tr))
          now).1.forecastHours = 82 ∧
      (parseJSONResponse s (some (mkResponse ts credits cc te ws dp wd se tr))
          now).1.forecastValid = true) ∧
    (¬(cc.length = 82 ∧ te.length = 82 ∧ ws.length = 82 ∧ dp.length = 82 ∧
       wd.length = 82 ∧ se.length = 82 ∧ tr.length = 82) →
      (parseJSONResponse s (some (mkResponse ts credits cc te ws dp wd se tr))
          now).2 = ParseOutcome.lengthMismatch ∧
      (parseJSONResponse s (some (mkResponse ts credits cc te ws dp wd se tr))
          now).1.forecastValid = s.forecastValid ∧
      (parseJSONResponse s (some (mkResponse ts credits cc te ws dp wd se tr))
          now).1.lastFetchTime = s.lastFetchTime) := by
  constructor
  · rintro ⟨h1, h2, h3, h4, h5, h6, h7⟩
    rw [parse_mkResponse_ok s ts credits cc te ws dp wd se tr now hts
      h1 h2 h3 h4 h5 h6 h7]
    simp [h1, h2, h3, h4, h5, h6, h7]
  · intro hlen
    rw [parse_mkResponse_mismatch s ts credits cc te ws dp wd se tr now hts hlen]
    exact ⟨rfl, rfl, rfl⟩

/-- C7: the published temperature and dew point equal the provider sample
minus 273.15 and the published wind speed equals the provider sample times
3.6, while cloud cover, wind direction, seeing and transparency are
published unconverted: the parse stores the converted series, and the
indexing step publishes exactly the stored sample at the hour offset. -/
theorem reported_values_unit_conversion (s : DriverState) (ts : String)
    (credits : Int) (cc te ws dp wd se tr : List ℚ) (now : Int)
    (hts : parseUTCDateTime ts ≠ -1) :
    ((parseJSONResponse s (some (mkResponse ts credits cc te ws dp wd se tr))
        now).1.cloudCover = cc ∧
     (parseJSONResponse s (some (mkResponse ts credits cc te ws dp wd se tr))
        now).1.temperature = te.map (fun q => q - 273.15) ∧
     (parseJSONResponse s (some (mkResponse ts credits cc te ws dp wd se tr))
        now).1.windSpeed = ws.map (fun q => q * 3.6) ∧
     (parseJSONResponse s (some (mkResponse ts credits cc te ws dp wd se tr))
        now).1.dewPoint = dp.map (fun q => q - 273.15) ∧
     (parseJSONResponse s (some (mkResponse ts credits cc te ws dp wd se tr))
        now).1.windDirection = wd ∧
     (parseJSONResponse s (some (mkResponse ts credits cc te ws dp wd se tr))
        now).1.seeing = se ∧
     (parseJSONResponse s (some (mkResponse ts credits cc te ws dp wd se tr))
        now).1.transparency = tr) ∧
    (∀ (s2 : DriverState) (t : Int) (f : Bool) (v : WeatherValues),
      (indexAndReport s2 t f).result = UpdateResult.okValues v →
      (s2.cloudCover[(hourOffsetOf t s2.forecastStartTime).toNat]? =
        some v.cloudCover ∧
       s2.temperature[(hourOffsetOf t s2.forecastStartTime).toNat]? =
        some v.temperature ∧
       s2.windSpeed[(hourOffsetOf t s2.forecastStartTime).toNat]? =
        some v.windSpeed ∧
       s2.dewPoint[(hourOffsetOf t s2.forecastStartTime).toNat]? =
        some v.dewPoint ∧
       s2.windDirection[(hourOffsetOf t s2.forecastStartTime).toNat]? =
        some v.windDirection ∧
       s2.seeing[(hourOffsetOf t s2.forecastStartTime).toNat]? =
        some v.seeing ∧
       s2.transparency[(hourOffsetOf t s2.forecastStartTime).toNat]? =
        some v.transparency)) := by
  constructor
  · by_cases hlen : cc.length = 82 ∧ te.length = 82 ∧ ws.length = 82 ∧
      dp.length = 82 ∧ wd.length = 82 ∧ se.length = 82 ∧ tr.length = 82
    · obtain ⟨h1, h2, h3, h4, h5, h6, h7⟩ := hlen
      rw [parse_mkResponse_ok s ts credits cc te ws dp wd se tr now hts
        h1 h2 h3 h4 h5 h6 h7]
      exact ⟨rfl, rfl, rfl, rfl, rfl, rfl, rfl⟩
    · rw [parse_mkResponse_mismatch s ts credits cc te ws dp wd se tr now hts hlen]
      exact ⟨rfl, rfl, rfl, rfl, rfl, rfl, rfl⟩
  · intro s2 t f v h
    simp only [indexAndReport] at h
    split at h
    · simp at h
    · rename_i hrange
      cases hs : seriesAt s2 (hourOffsetOf t s2.forecastStartTime).toNat with
      | none => rw [hs] at h; simp at h
      | some w =>
        rw [hs] at h
        simp only [UpdateResult.okValues.injEq] at h
        subst h
        exact (seriesAt_eq_some_iff s2 _ w).mp hs

/-- Closed witness: the reference response parses successfully, and the
seeing-series-too-short response fails with the length mismatch. -/
theorem parse_length_82_iff_witness :
    (parseJSONResponse storedState (some goodResp) 7).2 =
      ParseOutcome.success ∧
    (parseJSONResponse storedState (some lengthMismatchResp) 7).2 =
      ParseOutcome.lengthMismatch := by
  constructor
  · exact ((parse_length_82_iff storedState "1970-01-12T06:00:00Z" 1 (all82 50)
      (all82 293.15) (all82 10) (all82 280) (all82 180) (all82 2) (all82 15) 7
      (by decide)).1 (by decide)).1
  · exact ((parse_length_82_iff storedState "1970-01-12T06:00:00Z" 2 (all82 2)
      (all82 2) (all82 2) (all82 2) (all82 2) (List.replicate 3 2) (all82 2) 7
      (by decide)).2 (by decide)).1

/-- Closed witness for the unit conversions: 293.15 K is stored as 20 °C,
10 m/s as 36 km/h, cloud cover 50 unconverted; and the indexing step
publishes the stored sample. -/
theorem reported_values_unit_conversion_witness :
    (parseJSONResponse storedState (some goodResp) 7).1.temperature =
      List.replicate 82 (20 : ℚ) ∧
    (parseJSONResponse storedState (some goodResp) 7).1.windSpeed =
      List.replicate 82 (36 : ℚ) ∧
    (parseJSONResponse storedState (some goodResp) 7).1.cloudCover =
      List.replicate 82 (50 : ℚ) ∧
    storedState.seeing[(hourOffsetOf 0 storedState.forecastStartTime).toNat]? =
      some 1 := by
  unfold goodResp
  have hA := (reported_values_unit_conversion storedState "1970-01-12T06:00:00Z"
    1 (all82 50) (all82 293.15) (all82 10) (all82 280) (all82 180) (all82 2)
    (all82 15) 7 (by decide)).1
  refine ⟨?_, ?_, ?_, ?_⟩
  · rw [hA.2.1]
    have h20 : (293.15 : ℚ) - 273.15 = 20 := by norm_num
    simp [all82, List.map_replicate, h20]
  · rw [hA.2.2.1]
    have h36 : (10 : ℚ) * 3.6 = 36 := by norm_num
    simp [all82, List.map_replicate, h36]
  · rw [hA.1]
    decide
  · exact ((reported_values_unit_conversion storedState "1970-01-12T06:00:00Z"
      1 (all82 50) (all82 293.15) (all82 10) (all82 280) (all82 180) (all82 2)
      (all82 15) 7 (by decide)).2 storedState 0 false ⟨1, 1, 1, 1, 1, 1, 1⟩
      (by decide)).2.2.2.2.2.1

/-- C10 (code bug): after the reachable trace `oobEvents`, a tick whose
wall clock reads 1000800 — the system clock stepped back, as `time(nullptr)`
permits — sees a cache that is not stale (`valid` still true, 800 s since
the last accepted fetch), passes the range check (hour offset 8 against
`forecastHours = 82`), and then reads `seeing[8]` while the stored seeing
series has only 3 entries: an out-of-bounds `std::vector::operator[]`
access, i.e. undefined behaviour, where the claim asserts every access at
the indexing step is in bounds. -/
theorem oob_read_reachable_trace :
    (runEvents oobEvents).forecastValid = true ∧
    (runEvents oobEvents).forecastHours = 82 ∧
    (runEvents oobEvents).seeing.length = 3 ∧
    needsRefresh (runEvents oobEvents) 1000800 = false ∧
    hourOffsetOf 1000800 (runEvents oobEvents).forecastStartTime = 8 ∧
    (updateWeather (runEvents oobEvents) 1000800 FetchResult.fail).result =
      UpdateResult.outOfBoundsRead := by
  decide
